import Mathlib

/-!
Shallow embedding of the FacultyRate rating extraction and aggregation engine
(`src/api.py`, `src/app.py`, `src/models.py`).  SQL `Float` columns are
modelled as `ℚ`, rows as structures, the SQLite store as lists of rows in
rowid (insertion/id) order.  Python `round(x, 2)` is modelled as rational
rounding to 2 decimal places.
-/

namespace FacultyRate

/-- One row of the `reviews` table (`models.py`, class `Review`).  The
`faculty_id` column (`Column(Integer, ForeignKey('faculty.id'))`) is
nullable, so it is an `Option`: `none` models a review whose foreign key has
been nulled out (orphaned).  The `feedback`, `recommendation` and
`created_at` columns are not read by any of the aggregation logic and are
omitted. -/
structure Review where
  id : ℕ
  faculty_id : Option ℕ
  course_code : String
  teaching_effectiveness : ℚ
  student_engagement : ℚ
  clarity : ℚ
  professionalism : ℚ
  source_type : String := "direct_submission"
  deriving DecidableEq

/-- One row of the `faculty` table (`models.py`, class `Faculty`): identity,
name, department and the six stored aggregate columns (all defaulting to 0 /
0.0 as in the column defaults and in `get_or_create_faculty`). -/
structure Faculty where
  id : ℕ
  name : String
  department : Option String := none
  avg_teaching_effectiveness : ℚ := 0
  avg_student_engagement : ℚ := 0
  avg_clarity : ℚ := 0
  avg_professionalism : ℚ := 0
  overall_rating : ℚ := 0
  total_reviews : ℕ := 0
  deriving DecidableEq

/-- The SQLite database: the two tables, rows kept in rowid (ascending id)
order as SQLite returns them for unordered queries. -/
structure DB where
  faculty : List Faculty
  reviews : List Review
  deriving DecidableEq

/-- The relationship `Faculty.reviews`: all review rows whose `faculty_id`
references the given faculty id. -/
def reviewsOf (db : DB) (fid : ℕ) : List Review :=
  db.reviews.filter (fun r => r.faculty_id == some fid)

/-- `session.get(Faculty, faculty_id)`: lookup of a faculty row by id. -/
def findFaculty (db : DB) (fid : ℕ) : Option Faculty :=
  db.faculty.find? (fun f => f.id == fid)

/-- `statistics.mean` on a list of rationals (exact, as Python's `mean`
computes an exact rational sum before converting). -/
def mean (l : List ℚ) : ℚ := l.sum / l.length

/-- Python `round(x, 2)` modelled on `ℚ`: round `100 * x` to the nearest
integer and divide by 100 (tie behaviour is irrelevant to every input
exercised here). -/
def round2 (q : ℚ) : ℚ := (round (100 * q) : ℤ) / 100

/-- The faculty row produced by the body of `update_faculty_ratings`
(`api.py` lines 64-74) when the review set `rs` is nonempty: each stored
average is the mean of one dimension over `rs`, `overall_rating` is the mean
of the four just-computed averages, `total_reviews` the count. -/
def recomputed (f : Faculty) (rs : List Review) : Faculty :=
  let a := mean (rs.map (fun r => r.teaching_effectiveness))
  let b := mean (rs.map (fun r => r.student_engagement))
  let c := mean (rs.map (fun r => r.clarity))
  let d := mean (rs.map (fun r => r.professionalism))
  { f with
    avg_teaching_effectiveness := a
    avg_student_engagement := b
    avg_clarity := c
    avg_professionalism := d
    overall_rating := mean [a, b, c, d]
    total_reviews := rs.length }

/-- `update_faculty_ratings (api.py lines 58-77)`: recompute the stored
aggregates of one faculty, but only when the faculty exists and its review
set is nonempty (`if faculty and faculty.reviews:`); otherwise the database
is left unchanged. -/
def update_faculty_ratings (db : DB) (fid : ℕ) : DB :=
  match findFaculty db fid with
  | none => db
  | some _ =>
    let rs := reviewsOf db fid
    if rs.isEmpty then db
    else
      { db with
        faculty := db.faculty.map (fun g =>
          if g.id == fid then recomputed g rs else g) }

/-- Fresh id for a new row: one past the largest id in use. -/
def nextId (ids : List ℕ) : ℕ := ids.foldr max 0 + 1

/-- `get_or_create_faculty (api.py lines 79-104)`: return the id of the
faculty with the given name, creating a new row with all aggregates 0.0 and
`total_reviews` 0 when none exists. -/
def get_or_create_faculty (db : DB) (name : String) (department : Option String) :
    DB × ℕ :=
  match db.faculty.find? (fun f => f.name == name) with
  | some f => (db, f.id)
  | none =>
    let fid := nextId (db.faculty.map (fun f => f.id))
    ({ db with faculty := db.faculty ++ [{ id := fid, name := name, department := department }] },
     fid)

/-- The JSON payload of `POST /api/faculty/<id>/reviews`: course code, the
four ratings, and the optional `faculty_name`, `department` and
`source_type` fields (`data.get('source_type', 'direct_submission')`). -/
structure ReviewInput where
  course_code : String
  teaching_effectiveness : ℚ
  student_engagement : ℚ
  clarity : ℚ
  professionalism : ℚ
  faculty_name : Option String := none
  department : Option String := none
  source_type : Option String := none
  deriving DecidableEq

/-- `add_faculty_review (api.py lines 170-211)`: persist a new review for the
faculty (creating the faculty from `faculty_name` when the id is unknown,
404 -- modelled as no change -- when neither exists), then synchronously run
`update_faculty_ratings` on the owning faculty. -/
def add_faculty_review (db : DB) (fid : ℕ) (inp : ReviewInput) : DB :=
  let ins : DB → ℕ → DB := fun d i =>
    let r : Review :=
      { id := nextId (d.reviews.map (fun r => r.id)),
        faculty_id := some i,
        course_code := inp.course_code,
        teaching_effectiveness := inp.teaching_effectiveness,
        student_engagement := inp.student_engagement,
        clarity := inp.clarity,
        professionalism := inp.professionalism,
        source_type := inp.source_type.getD "direct_submission" }
    update_faculty_ratings { d with reviews := d.reviews ++ [r] } i
  match findFaculty db fid with
  | some _ => ins db fid
  | none =>
    match inp.faculty_name with
    | some nm =>
      let (db', fid') := get_or_create_faculty db nm inp.department
      ins db' fid'
    | none => db

/-- `delete_review_by_id (api.py lines 601-616)`: remove one review by id
(404 when absent).  No aggregate recomputation is performed. -/
def delete_review_by_id (db : DB) (rid : ℕ) : DB :=
  match db.reviews.find? (fun r => r.id == rid) with
  | none => db
  | some _ => { db with reviews := db.reviews.filter (fun r => !(r.id == rid)) }

/-- `delete_faculty_reviews (api.py lines 568-582)`: remove every review of
one faculty id.  No aggregate recomputation is performed. -/
def delete_faculty_reviews (db : DB) (fid : ℕ) : DB :=
  { db with reviews := db.reviews.filter (fun r => !(r.faculty_id == some fid)) }

/-- `delete_faculty_reviews_by_name (api.py lines 628-653)`: find the faculty
whose name equals the upper-cased request name, remove its reviews, then run
`update_faculty_ratings` on it. -/
def delete_faculty_reviews_by_name (db : DB) (name : String) : DB :=
  match db.faculty.find? (fun f => f.name == name.toUpper) with
  | none => db
  | some f =>
    update_faculty_ratings
      { db with reviews := db.reviews.filter (fun r => !(r.faculty_id == some f.id)) }
      f.id

/-- `delete_course_reviews (api.py lines 401-423)`: remove every review of
the given course, then run `update_faculty_ratings` on every faculty that
still owns at least one review (`Faculty.reviews.any()` is evaluated after
the deletion). -/
def delete_course_reviews (db : DB) (course : String) : DB :=
  let db1 : DB := { db with reviews := db.reviews.filter (fun r => !(r.course_code == course)) }
  let affected := db1.faculty.filter (fun f => !(reviewsOf db1 f.id).isEmpty)
  affected.foldl (fun d f => update_faculty_ratings d f.id) db1

/-- `delete_faculty_course_reviews (api.py lines 425-453)`: remove the
reviews of one faculty for one course (404 when the faculty is unknown),
then run `update_faculty_ratings` on that faculty. -/
def delete_faculty_course_reviews (db : DB) (fid : ℕ) (course : String) : DB :=
  match findFaculty db fid with
  | none => db
  | some _ =>
    update_faculty_ratings
      { db with reviews := db.reviews.filter (fun r =>
          !(r.faculty_id == some fid && r.course_code == course)) }
      fid

/-- The faculty rows named `"ARD"`, in rowid order
(`session.query(Faculty).filter_by(name="ARD").all()`). -/
def ardEntries (db : DB) : List Faculty :=
  db.faculty.filter (fun f => f.name == "ARD")

/-- `consolidate_ard (api.py lines 353-381)`: when two or more rows are named
`"ARD"`, the code assigns `review.faculty_id = main_ard.id` for every review
in each duplicate's loaded collection and then `session.delete`s the
duplicate, all in one unit of work.  At flush, SQLAlchemy's dependency
processing for the deleted parent nulls out the foreign key of every review
still present in its `reviews` collection (the relationship has no delete
cascade, and the raw column assignment does not update the relationship
state, which takes precedence).  The net effect modelled here: the
duplicates' reviews are orphaned (`faculty_id` NULL), the duplicate rows are
deleted, and the first returned row survives with its own review set
unchanged.  When at most one row matches, nothing changes and the response
reports that no consolidation is needed.  The returned string is the
response message. -/
def consolidate_ard (db : DB) : DB × String :=
  let entries := ardEntries db
  match entries with
  | _main :: dup1 :: dups =>
    let losers := dup1 :: dups
    let reviews2 := db.reviews.map (fun r =>
      if losers.any (fun f => r.faculty_id == some f.id)
      then { r with faculty_id := none } else r)
    let faculty2 := db.faculty.filter (fun f => !((losers.map (fun f => f.id)).contains f.id))
    (⟨faculty2, reviews2⟩,
     "Successfully consolidated " ++ toString entries.length ++ " ARD entries into one")
  | _ => (db, "No consolidation needed")

/-- The aggregate view returned to API readers. -/
structure Ratings where
  teaching_effectiveness : ℚ
  student_engagement : ℚ
  clarity : ℚ
  professionalism : ℚ
  overall : ℚ
  deriving DecidableEq

/-- The all-zero aggregate view. -/
def zeroRatings : Ratings := ⟨0, 0, 0, 0, 0⟩

/-- `Faculty.average_ratings (models.py lines 24-63)`: a non-persisted view.
When the faculty has no reviews at all, or none of its reviews has
`source_type == 'screenshot_analysis'`, every field is 0; otherwise each
dimension is the mean over the screenshot-analysis reviews rounded to 2
decimal places, and `overall` is the rounded mean of those four rounded
values. -/
def average_ratings (db : DB) (f : Faculty) : Ratings :=
  let rs := reviewsOf db f.id
  if rs.isEmpty then zeroRatings
  else
    let sel := rs.filter (fun r => r.source_type == "screenshot_analysis")
    if sel.isEmpty then zeroRatings
    else
      let a := round2 (mean (sel.map (fun r => r.teaching_effectiveness)))
      let b := round2 (mean (sel.map (fun r => r.student_engagement)))
      let c := round2 (mean (sel.map (fun r => r.clarity)))
      let d := round2 (mean (sel.map (fun r => r.professionalism)))
      ⟨a, b, c, d, round2 ((a + b + c + d) / 4)⟩

/-- `get_faculty_details (api.py lines 124-155)`, restricted to the fields
the claims read: the `ratings` value (which is `faculty.average_ratings`)
and `total_reviews` (which is `len(faculty.reviews)`); `none` models the
404 response. -/
def get_faculty_details (db : DB) (fid : ℕ) : Option (Ratings × ℕ) :=
  (findFaculty db fid).map (fun f => (average_ratings db f, (reviewsOf db fid).length))

/-- Modelled from the spec (section 4.2): `filteredAverages(faculty,
sourceType)`, the read-only view parameterised by a provenance tag, averaging
only the reviews matching the given `sourceType`, each dimension rounded to
2 decimal places, all-zero (overall included) when the filtered subset is
empty.  Used to compare the claimed parameterised operation with the code's
`average_ratings`, whose filter tag is fixed. -/
def filteredAverages_spec (db : DB) (f : Faculty) (sourceType : String) : Ratings :=
  let sel := (reviewsOf db f.id).filter (fun r => r.source_type == sourceType)
  if sel.isEmpty then zeroRatings
  else
    let a := round2 (mean (sel.map (fun r => r.teaching_effectiveness)))
    let b := round2 (mean (sel.map (fun r => r.student_engagement)))
    let c := round2 (mean (sel.map (fun r => r.clarity)))
    let d := round2 (mean (sel.map (fun r => r.professionalism)))
    ⟨a, b, c, d, round2 ((a + b + c + d) / 4)⟩

/-!
Rating extraction (`app.py`, `analyze_feedback`, lines 150-192).  The five
`re.search` calls use patterns of the shape `<label>\s*([\d.]+)/5` (the
overall pattern inserts a lazy `.*?:` after its label), all with
`re.IGNORECASE`; the matched group is fed to Python `float`, whose failure
raises and sends the whole function down its `except` path.  `re.search`
semantics are modelled directly: try to match at every position, leftmost
success wins; inside one position, `\s*` and `[\d.]+` are maximal munches
(no shorter munch can be followed by `/5`, since `/` belongs to neither
class), and the lazy `.*?` scans left-to-right over non-newline characters
for a `:` whose suffix completes the pattern.
-/

/-- Characters matched by the regex class `[\d.]`. -/
def isNumChar (c : Char) : Bool := c.isDigit || c == '.'

/-- Characters matched by Python's `\s` (ASCII inputs). -/
def isSpaceChar (c : Char) : Bool :=
  c == ' ' || c == '\t' || c == '\n' || c == '\r' || c == '\x0b' || c == '\x0c'

/-- Case-insensitive literal match of `label` (given lower-cased) at the head
of the text; returns the remaining text on success. -/
def matchLabel : List Char → List Char → Option (List Char)
  | [], rest => some rest
  | _ :: _, [] => none
  | l :: ls, c :: cs => if c.toLower == l then matchLabel ls cs else none

/-- Match `\s*([\d.]+)/5` at the head of the text, returning the group. -/
def numSlashFive (cs : List Char) : Option (List Char) :=
  let cs1 := cs.dropWhile isSpaceChar
  let num := cs1.takeWhile isNumChar
  match num, cs1.dropWhile isNumChar with
  | [], _ => none
  | _, '/' :: '5' :: _ => some num
  | _, _ => none

/-- `re.search(label + r'\s*([\d.]+)/5', text, re.IGNORECASE)`: leftmost
position where the label matches case-insensitively and a number group
followed by `/5` completes the pattern. -/
def searchSub (label : List Char) : List Char → Option (List Char)
  | [] => none
  | c :: cs =>
    match matchLabel label (c :: cs) with
    | some rest =>
      match numSlashFive rest with
      | some num => some num
      | none => searchSub label cs
    | none => searchSub label cs

/-- The `.*?:\s*([\d.]+)/5` tail of the overall pattern: scan non-newline
characters for a `:` whose suffix matches the number part. -/
def overallColon : List Char → Option (List Char)
  | [] => none
  | c :: cs =>
    if c == '\n' then none
    else
      match (if c == ':' then numSlashFive cs else none) with
      | some num => some num
      | none => overallColon cs

/-- `re.search(r'OVERALL RATING.*?:\s*([\d.]+)/5', text, re.IGNORECASE)`. -/
def searchOverall : List Char → Option (List Char)
  | [] => none
  | c :: cs =>
    match matchLabel ("overall rating".toList) (c :: cs) with
    | some rest =>
      match overallColon rest with
      | some num => some num
      | none => searchOverall cs
    | none => searchOverall cs

/-- Python's `needle in haystack` on strings (case-sensitive). -/
def containsSeq (needle : List Char) : List Char → Bool
  | [] => needle.isEmpty
  | c :: cs => needle.isPrefixOf (c :: cs) || containsSeq needle cs

/-- Decimal value of a digit run. -/
def natOfDigits (cs : List Char) : ℕ :=
  cs.foldl (fun n c => 10 * n + (c.toNat - 48)) 0

/-- Python `float` restricted to strings over `[0-9.]`: defined exactly when
the string holds at least one digit and at most one dot, in which case the
value is `intpart.fracpart`. -/
def floatOfNum (cs : List Char) : Option ℚ :=
  if cs.count '.' ≤ 1 && cs.any (fun c => c.isDigit) then
    let ip := cs.takeWhile (fun c => !(c == '.'))
    let fp := (cs.dropWhile (fun c => !(c == '.'))).drop 1
    some ((natOfDigits ip : ℚ) + (natOfDigits fp : ℚ) / 10 ^ fp.length)
  else none

/-- Outcome of one field: `none` models the `float` call raising (sending
`analyze_feedback` down its `except` path); `some none` an absent match;
`some (some q)` a parsed value. -/
def fieldValue (g : Option (List Char)) : Option (Option ℚ) :=
  match g with
  | none => some none
  | some num =>
    match floatOfNum num with
    | none => none
    | some q => some (some q)

/-- The ratings dictionary built by `analyze_feedback`. -/
structure ExtractedRatings where
  teaching_effectiveness : Option ℚ
  student_engagement : Option ℚ
  clarity : Option ℚ
  professionalism : Option ℚ
  overall : Option ℚ
  deriving DecidableEq

/-- The four sub-rating pattern searches of `analyze_feedback`, in source
order. -/
def subSearches (cs : List Char) : List (Option (List Char)) :=
  [searchSub ("teaching effectiveness:".toList) cs,
   searchSub ("student engagement:".toList) cs,
   searchSub ("clarity of presentation:".toList) cs,
   searchSub ("overall professionalism:".toList) cs]

/-- `analyze_feedback (app.py lines 150-192)`, the pure extraction part over
the generated text: `none` when the text carries the `NO_FEEDBACK_FOUND`
sentinel or any matched number fails `float` (both return `(None, None,
None)` in the source); otherwise the ratings dictionary, where `overall` is
the explicitly matched overall number when present and else the mean of the
sub-ratings that parsed (staying `None` when none did).  The recommendation
extraction and the raw response text, which the ratings logic never reads,
are not modelled. -/
def analyze_feedback (text : String) : Option ExtractedRatings :=
  let cs := text.toList
  if containsSeq ("NO_FEEDBACK_FOUND".toList) cs then none
  else
    match fieldValue (searchSub ("teaching effectiveness:".toList) cs) with
    | none => none
    | some te =>
      match fieldValue (searchSub ("student engagement:".toList) cs) with
      | none => none
      | some se =>
        match fieldValue (searchSub ("clarity of presentation:".toList) cs) with
        | none => none
        | some cl =>
          match fieldValue (searchSub ("overall professionalism:".toList) cs) with
          | none => none
          | some pr =>
            match fieldValue (searchOverall cs) with
            | none => none
            | some ov =>
              let overall :=
                match ov with
                | some q => some q
                | none =>
                  let valid := [te, se, cl, pr].filterMap id
                  if valid.isEmpty then none else some (valid.sum / valid.length)
              some ⟨te, se, cl, pr, overall⟩

/-!
Property layer and concrete instances used by the claims.
-/

/-- The stored aggregates of faculty `fid` agree with a fresh recomputation
over its current review set: each stored average is the arithmetic mean of
its dimension over every review regardless of `source_type`, the overall
rating is the mean of the four stored averages, and `total_reviews` is the
review count. -/
def freshAt (db : DB) (fid : ℕ) : Prop :=
  ∃ f', findFaculty db fid = some f' ∧
    f'.avg_teaching_effectiveness = mean ((reviewsOf db fid).map (fun r => r.teaching_effectiveness)) ∧
    f'.avg_student_engagement = mean ((reviewsOf db fid).map (fun r => r.student_engagement)) ∧
    f'.avg_clarity = mean ((reviewsOf db fid).map (fun r => r.clarity)) ∧
    f'.avg_professionalism = mean ((reviewsOf db fid).map (fun r => r.professionalism)) ∧
    f'.overall_rating = mean [f'.avg_teaching_effectiveness, f'.avg_student_engagement,
      f'.avg_clarity, f'.avg_professionalism] ∧
    f'.total_reviews = (reviewsOf db fid).length

/-- The sub-ratings of an extraction result that were successfully parsed. -/
def parsedSubs (r : ExtractedRatings) : List ℚ :=
  [r.teaching_effectiveness, r.student_engagement, r.clarity, r.professionalism].filterMap id

/-- A one-faculty database with no reviews. -/
def dbX0 : DB := ⟨[{ id := 1, name := "X" }], []⟩

/-- Review payload with all four ratings 5 for course CSE330, default
provenance. -/
def inp5 : ReviewInput :=
  { course_code := "CSE330", teaching_effectiveness := 5, student_engagement := 5,
    clarity := 5, professionalism := 5 }

/-- Review payload with all four ratings 4, default provenance. -/
def inp4 : ReviewInput :=
  { course_code := "OTHER", teaching_effectiveness := 4, student_engagement := 4,
    clarity := 4, professionalism := 4 }

/-- Review payload with all four ratings 4 and screenshot provenance. -/
def inp4shot : ReviewInput :=
  { course_code := "CSE101", teaching_effectiveness := 4, student_engagement := 4,
    clarity := 4, professionalism := 4, source_type := some "screenshot_analysis" }

/-- `dbX0` after posting one all-fives review: the stored aggregates are
freshly 5.0 with one review counted. -/
def dbX1 : DB := add_faculty_review dbX0 1 inp5

/-- The faculty row of `dbX1`: aggregates 5.0, one review counted. -/
def staleX : Faculty :=
  { id := 1, name := "X", avg_teaching_effectiveness := 5, avg_student_engagement := 5,
    avg_clarity := 5, avg_professionalism := 5, overall_rating := 5, total_reviews := 1 }

/-- `dbX1` after deleting all reviews of faculty "X" through the by-name
endpoint (which calls the recompute). -/
def dbX2 : DB := delete_faculty_reviews_by_name dbX1 "X"

/-- `dbX1` after deleting its single review by id. -/
def dbX3 : DB := delete_review_by_id dbX1 1

/-- `dbX1` after deleting all reviews of faculty id 1. -/
def dbX4 : DB := delete_faculty_reviews dbX1 1

/-- Two faculty with one fresh review each: faculty 1 for course CSE330
(all fives), faculty 2 for course OTHER (all fours). -/
def dbY2 : DB :=
  add_faculty_review (add_faculty_review ⟨[{ id := 1, name := "X" }, { id := 2, name := "Y" }], []⟩ 1 inp5) 2 inp4

/-- `dbY2` after deleting every CSE330 review. -/
def dbY3 : DB := delete_course_reviews dbY2 "CSE330"

/-- Two ARD rows, the second owning one fresh all-fours review, the first
owning none. -/
def dbZ1 : DB :=
  add_faculty_review ⟨[{ id := 1, name := "ARD" }, { id := 2, name := "ARD" }], []⟩ 2 inp4

/-- A single-ARD database (no consolidation needed). -/
def dbSmallArd : DB := ⟨[{ id := 1, name := "ARD" }], []⟩

/-- A review row for concrete consolidation databases. -/
def mkRev (rid fid : ℕ) : Review :=
  { id := rid, faculty_id := some fid, course_code := "C", teaching_effectiveness := 4,
    student_engagement := 4, clarity := 4, professionalism := 4 }

/-- First ARD duplicate. -/
def fA1 : Faculty := { id := 1, name := "ARD" }

/-- Second ARD duplicate. -/
def fA2 : Faculty := { id := 2, name := "ARD" }

/-- Third ARD duplicate. -/
def fA3 : Faculty := { id := 3, name := "ARD" }

/-- Three ARD duplicates owning 2, 0 and 3 reviews respectively, plus an
unrelated faculty owning one review. -/
def dbA : DB :=
  ⟨[fA1, fA2, fA3, { id := 4, name := "XX" }],
   [mkRev 1 1, mkRev 2 1, mkRev 3 3, mkRev 4 3, mkRev 5 3, mkRev 6 4]⟩

/-- One-faculty database whose single review has all ratings 4 and the
default `direct_submission` provenance. -/
def dbW1 : DB := add_faculty_review dbX0 1 inp4

/-- Faculty row for the filtered-view counterexample. -/
def fD : Faculty := { id := 1, name := "X" }

/-- Database holding one `direct_submission` review with all ratings 4. -/
def dbD : DB := ⟨[fD], [mkRev 1 1]⟩

/-- Text whose four sub-ratings are 4, 3, 2, 5 and which has no overall
line. -/
def exText0 : String :=
  "Teaching effectiveness: 4/5\nStudent engagement: 3/5\nClarity of presentation: 2/5\nOverall professionalism: 5/5"

/-- The extraction result of `exText0`. -/
def exRatings0 : ExtractedRatings := ⟨some 4, some 3, some 2, some 5, some (7/2)⟩

/-- Text with an out-of-range teaching rating (9.9/5) next to a valid
engagement rating. -/
def exTextRange : String := "Teaching effectiveness: 9.9/5\nStudent engagement: 4/5"

/-- The extraction result of `exTextRange`: 9.9 is kept, not dropped. -/
def exRatingsRange : ExtractedRatings := ⟨some (99/10), some 4, none, none, some (139/20)⟩

/-- Text whose teaching rating matches the pattern but is not a valid float
(`1.2.3`), next to a valid engagement rating. -/
def exTextFatal : String := "Teaching effectiveness: 1.2.3/5\nStudent engagement: 4/5"

/-- Text with an explicit overall line (3.0) that differs from its only
sub-rating (4.5). -/
def exTextOv : String := "Teaching effectiveness: 4.5/5\nOVERALL RATING FOR X: 3.0/5"

/-- The extraction result of `exTextOv`: the explicit overall is taken
verbatim. -/
def exRatingsOv : ExtractedRatings := ⟨some (9/2), none, none, none, some 3⟩

/-- A second review with distinct ratings 2, 3, 4, 5. -/
def rMix : Review :=
  { id := 2, faculty_id := some 1, course_code := "C", teaching_effectiveness := 2,
    student_engagement := 3, clarity := 4, professionalism := 5 }

/-- One faculty with two reviews of different ratings. -/
def dbC2 : DB := ⟨[{ id := 1, name := "X" }], [mkRev 1 1, rMix]⟩

/-- The faculty-2 row of `dbY2`: fresh all-fours aggregates, one review. -/
def freshY : Faculty :=
  { id := 2, name := "Y", avg_teaching_effectiveness := 4, avg_student_engagement := 4,
    avg_clarity := 4, avg_professionalism := 4, overall_rating := 4, total_reviews := 1 }

/-!
Helper lemmas about `update_faculty_ratings` and its `foldl` iteration.
-/

theorem recomputed_id (f : Faculty) (rs : List Review) : (recomputed f rs).id = f.id := rfl

theorem update_of_empty (db : DB) (fid : ℕ) (h : reviewsOf db fid = []) :
    update_faculty_ratings db fid = db := by
  unfold update_faculty_ratings
  cases hf : findFaculty db fid <;> simp [h]

theorem update_active (db : DB) (fid : ℕ) (f : Faculty) (hf : findFaculty db fid = some f)
    (hne : ¬(reviewsOf db fid).isEmpty = true) :
    update_faculty_ratings db fid =
      { db with faculty := db.faculty.map (fun g =>
          if g.id == fid then recomputed g (reviewsOf db fid) else g) } := by
  unfold update_faculty_ratings
  simp [hf, hne]

theorem reviews_update (db : DB) (fid : ℕ) :
    (update_faculty_ratings db fid).reviews = db.reviews := by
  unfold update_faculty_ratings
  cases findFaculty db fid
  · rfl
  · dsimp only
    split <;> rfl

theorem reviewsOf_update (db : DB) (fid x : ℕ) :
    reviewsOf (update_faculty_ratings db fid) x = reviewsOf db x := by
  simp [reviewsOf, reviews_update]

theorem find?_id_map (l : List Faculty) (fid x : ℕ) (rs : List Review) :
    (l.map (fun g => if g.id == fid then recomputed g rs else g)).find? (fun f => f.id == x)
      = (l.find? (fun f => f.id == x)).map (fun g =>
          if g.id == fid then recomputed g rs else g) := by
  rw [List.find?_map]
  have : ((fun f : Faculty => f.id == x) ∘ fun g =>
      if g.id == fid then recomputed g rs else g) = fun f : Faculty => f.id == x := by
    funext g
    by_cases h : (g.id == fid) = true <;> simp [Function.comp, h, recomputed_id]
  rw [this]

theorem findFaculty_def (db : DB) (fid : ℕ) :
    findFaculty db fid = db.faculty.find? (fun f => f.id == fid) := rfl

theorem update_fresh (db : DB) (fid : ℕ) (hs : (findFaculty db fid).isSome)
    (hne : reviewsOf db fid ≠ []) : freshAt (update_faculty_ratings db fid) fid := by
  obtain ⟨f, hf⟩ := Option.isSome_iff_exists.mp hs
  have hne' : ¬(reviewsOf db fid).isEmpty = true := by simp [List.isEmpty_iff, hne]
  rw [update_active db fid f hf hne']
  rw [findFaculty_def] at hf
  have hid : (f.id == fid) = true :=
    List.find?_some (p := fun g : Faculty => g.id == fid) hf
  refine ⟨recomputed f (reviewsOf db fid), ?_, ?_, ?_, ?_, ?_, ?_, ?_⟩
  · rw [findFaculty_def]
    dsimp only
    rw [find?_id_map, hf]
    dsimp only [Option.map_some']
    rw [if_pos hid]
  all_goals simp [recomputed, reviewsOf, mean]

theorem freshAt_update (db : DB) (fid x : ℕ) (h : freshAt db x) :
    freshAt (update_faculty_ratings db fid) x := by
  obtain ⟨f', hfind, h1, h2, h3, h4, h5, h6⟩ := h
  by_cases hne : reviewsOf db fid = []
  · rw [update_of_empty db fid hne]
    exact ⟨f', hfind, h1, h2, h3, h4, h5, h6⟩
  · cases hf : findFaculty db fid with
    | none =>
      unfold update_faculty_ratings
      rw [hf]
      exact ⟨f', hfind, h1, h2, h3, h4, h5, h6⟩
    | some f0 =>
      have hne' : ¬(reviewsOf db fid).isEmpty = true := by simp [List.isEmpty_iff, hne]
      rw [update_active db fid f0 hf hne']
      rw [findFaculty_def] at hfind
      by_cases hid : (f'.id == fid) = true
      · have hx : f'.id = x := by
          simpa using List.find?_some (p := fun g : Faculty => g.id == x) hfind
        have hfx : fid = x := by
          have : f'.id = fid := by simpa using hid
          omega
        subst hfx
        refine ⟨recomputed f' (reviewsOf db fid), ?_, ?_, ?_, ?_, ?_, ?_, ?_⟩
        · rw [findFaculty_def]
          dsimp only
          rw [find?_id_map, hfind]
          dsimp only [Option.map_some']
          rw [if_pos hid]
        all_goals simp [recomputed, reviewsOf, mean]
      · refine ⟨f', ?_, h1, h2, h3, h4, h5, h6⟩
        rw [findFaculty_def]
        dsimp only
        rw [find?_id_map, hfind]
        dsimp only [Option.map_some']
        rw [if_neg hid]

theorem findFaculty_isSome_update (db : DB) (fid x : ℕ) :
    (findFaculty (update_faculty_ratings db fid) x).isSome = (findFaculty db x).isSome := by
  unfold update_faculty_ratings
  cases findFaculty db fid
  · rfl
  · dsimp only
    split
    · rfl
    · show (findFaculty { db with faculty := _ } x).isSome = _
      unfold findFaculty
      rw [find?_id_map]
      cases (db.faculty.find? (fun f => f.id == x)) <;> rfl

theorem mem_faculty_update (db : DB) (fid : ℕ) (f : Faculty) (hf : f ∈ db.faculty)
    (he : reviewsOf db f.id = []) : f ∈ (update_faculty_ratings db fid).faculty := by
  unfold update_faculty_ratings
  cases findFaculty db fid
  · exact hf
  · dsimp only
    split
    · exact hf
    · next hne =>
      have hid : (f.id == fid) = false := by
        simp only [beq_eq_false_iff_ne, ne_eq]
        intro h
        rw [← h] at hne
        exact hne (by simp [he])
      have hu : (fun g : Faculty =>
          if g.id == fid then recomputed g (reviewsOf db fid) else g) f = f := by simp [hid]
      show f ∈ db.faculty.map _
      rw [← hu]
      exact List.mem_map_of_mem _ hf

theorem foldl_update_reviews (L : List Faculty) (d : DB) :
    (L.foldl (fun a g => update_faculty_ratings a g.id) d).reviews = d.reviews := by
  induction L generalizing d with
  | nil => rfl
  | cons h t ih => simp [List.foldl_cons, ih, reviews_update]

theorem foldl_update_reviewsOf (L : List Faculty) (d : DB) (x : ℕ) :
    reviewsOf (L.foldl (fun a g => update_faculty_ratings a g.id) d) x = reviewsOf d x := by
  simp [reviewsOf, foldl_update_reviews]

theorem foldl_update_mem (L : List Faculty) (d : DB) (f : Faculty) (hf : f ∈ d.faculty)
    (he : reviewsOf d f.id = []) :
    f ∈ (L.foldl (fun a g => update_faculty_ratings a g.id) d).faculty := by
  induction L generalizing d with
  | nil => exact hf
  | cons h t ih =>
    exact ih (update_faculty_ratings d h.id) (mem_faculty_update d h.id f hf he)
      (by rw [reviewsOf_update]; exact he)

theorem foldl_update_fresh (L : List Faculty) (d : DB) (x : ℕ) (h : freshAt d x) :
    freshAt (L.foldl (fun a g => update_faculty_ratings a g.id) d) x := by
  induction L generalizing d with
  | nil => exact h
  | cons a t ih => exact ih (update_faculty_ratings d a.id) (freshAt_update d a.id x h)

theorem foldl_update_fresh_of_mem (L : List Faculty) (d : DB) (g : Faculty) (hg : g ∈ L)
    (hs : (findFaculty d g.id).isSome) (hne : reviewsOf d g.id ≠ []) :
    freshAt (L.foldl (fun a g => update_faculty_ratings a g.id) d) g.id := by
  induction L generalizing d with
  | nil => cases hg
  | cons a t ih =>
    rcases List.mem_cons.mp hg with rfl | hg'
    · exact foldl_update_fresh t (update_faculty_ratings d g.id) g.id
        (update_fresh d g.id hs hne)
    · exact ih (update_faculty_ratings d a.id) hg'
        (by rw [findFaculty_isSome_update]; exact hs)
        (by rw [reviewsOf_update]; exact hne)

theorem reviewsOf_filter (db : DB) (p : Review → Bool) (fid : ℕ) :
    reviewsOf { db with reviews := db.reviews.filter p } fid = (reviewsOf db fid).filter p := by
  unfold reviewsOf
  dsimp only
  rw [List.filter_filter, List.filter_filter]
  exact List.filter_congr (fun a _ => by rw [Bool.and_comm])

theorem add_ins_fresh (db : DB) (fid : ℕ) (r : Review) (hr : r.faculty_id = some fid)
    (hs : (findFaculty db fid).isSome) :
    freshAt (update_faculty_ratings { db with reviews := db.reviews ++ [r] } fid) fid ∧
    reviewsOf (update_faculty_ratings { db with reviews := db.reviews ++ [r] } fid) fid ≠ [] := by
  have hrev : reviewsOf { db with reviews := db.reviews ++ [r] } fid
      = reviewsOf db fid ++ [r] := by
    unfold reviewsOf
    dsimp only
    rw [List.filter_append]
    simp [hr]
  have hne : reviewsOf { db with reviews := db.reviews ++ [r] } fid ≠ [] := by
    rw [hrev]
    simp
  refine ⟨update_fresh _ fid hs hne, ?_⟩
  rw [reviewsOf_update]
  exact hne

/-!
Claim theorems.
-/

/-- C1 (amended): for a faculty with zero reviews, the `average_ratings`
view reads exactly zero in all five fields, and the aggregate recompute is a
no-op — it leaves the stored aggregate columns at their prior values rather
than setting them to 0.0. -/
theorem claim_C1_amended (db : DB) (f : Faculty) (h : reviewsOf db f.id = []) :
    average_ratings db f = zeroRatings ∧ update_faculty_ratings db f.id = db := by
  constructor
  · unfold average_ratings
    simp [h]
  · exact update_of_empty db f.id h

/-- Witness for C1 (amended): the zero-review faculty of `dbX2` (all of
whose reviews were just deleted) reads an all-zero view, and recomputing it
changes nothing. -/
theorem claim_C1_witness :
    average_ratings dbX2 staleX = zeroRatings ∧
    update_faculty_ratings dbX2 staleX.id = dbX2 :=
  claim_C1_amended dbX2 staleX (by with_unfolding_all decide)

/-- Counterexample to C1 as stated: after deleting all reviews of faculty 1
through the by-name endpoint (which does invoke the recompute), the faculty
has zero reviews but its five stored aggregate columns still hold the stale
prior values 5.0 (and `total_reviews` 1), not 0.0. -/
theorem claim_C1_cex :
    reviewsOf dbX2 1 = [] ∧ findFaculty dbX2 1 = some staleX ∧
    staleX.overall_rating = 5 ∧ staleX.total_reviews = 1 := by
  with_unfolding_all decide

/-- C2: for a faculty with at least one review, running the recompute leaves
the stored aggregates fresh — each stored average is the mean of its
dimension over every review regardless of `source_type`, the overall rating
is the mean of the four stored averages, and `total_reviews` is the review
count — and the review set itself is unchanged. -/
theorem claim_C2 (db : DB) (fid : ℕ) (hs : (findFaculty db fid).isSome)
    (hne : reviewsOf db fid ≠ []) :
    freshAt (update_faculty_ratings db fid) fid ∧
    reviewsOf (update_faculty_ratings db fid) fid = reviewsOf db fid :=
  ⟨update_fresh db fid hs hne, reviewsOf_update db fid fid⟩

/-- Witness for C2 at a two-review database with mixed ratings and mixed
provenance. -/
theorem claim_C2_witness :
    freshAt (update_faculty_ratings dbC2 1) 1 ∧
    reviewsOf (update_faculty_ratings dbC2 1) 1 = reviewsOf dbC2 1 :=
  claim_C2 dbC2 1 (by with_unfolding_all decide) (by with_unfolding_all decide)

/-- C5 (amended): after a review creation through the add-review endpoint
the owning faculty's stored aggregates equal a fresh recomputation over its
(nonempty) current review set. -/
theorem claim_C5_amended (db : DB) (fid : ℕ) (inp : ReviewInput) (f : Faculty)
    (hf : findFaculty db fid = some f) :
    freshAt (add_faculty_review db fid inp) fid ∧
    reviewsOf (add_faculty_review db fid inp) fid ≠ [] := by
  unfold add_faculty_review
  rw [hf]
  exact add_ins_fresh db fid _ rfl (by rw [hf]; rfl)

/-- Witness for C5 (amended): posting one review keeps faculty 1 fresh. -/
theorem claim_C5_witness :
    freshAt (add_faculty_review dbX0 1 inp5) 1 ∧
    reviewsOf (add_faculty_review dbX0 1 inp5) 1 ≠ [] :=
  claim_C5_amended dbX0 1 inp5 { id := 1, name := "X" } (by with_unfolding_all decide)

/-- Counterexample to C5 as stated: deleting the only review of faculty 1 by
review id, or deleting all reviews of faculty id 1, leaves the faculty with
zero reviews but with the stale stored aggregates 5.0 / `total_reviews` 1 —
no recompute ran on either deletion path. -/
theorem claim_C5_cex :
    reviewsOf dbX3 1 = [] ∧ findFaculty dbX3 1 = some staleX ∧
    reviewsOf dbX4 1 = [] ∧ findFaculty dbX4 1 = some staleX := by
  with_unfolding_all decide

/-- C6 (amended): deleting all reviews of a course removes exactly the
matching reviews; a faculty left with zero reviews is skipped by the
recompute and keeps its prior stored row; every faculty still owning a
review is recomputed fresh (affected or not); and the review set of every
faculty that owned no deleted review is unchanged. -/
theorem claim_C6_amended (db : DB) (course : String) :
    (delete_course_reviews db course).reviews
        = db.reviews.filter (fun r => !(r.course_code == course)) ∧
    (∀ f ∈ db.faculty,
      reviewsOf { db with reviews := db.reviews.filter (fun r => !(r.course_code == course)) } f.id = [] →
      f ∈ (delete_course_reviews db course).faculty) ∧
    (∀ f ∈ db.faculty,
      reviewsOf { db with reviews := db.reviews.filter (fun r => !(r.course_code == course)) } f.id ≠ [] →
      freshAt (delete_course_reviews db course) f.id) ∧
    (∀ fid : ℕ, (∀ r ∈ reviewsOf db fid, ¬ r.course_code = course) →
      reviewsOf (delete_course_reviews db course) fid = reviewsOf db fid) := by
  unfold delete_course_reviews
  dsimp only
  refine ⟨?_, ?_, ?_, ?_⟩
  · rw [foldl_update_reviews]
  · intro f hf he
    exact foldl_update_mem _ _ f hf he
  · intro f hf hne
    refine foldl_update_fresh_of_mem _ _ f ?_ ?_ hne
    · refine List.mem_filter.mpr ⟨hf, ?_⟩
      cases hE : (reviewsOf { db with
          reviews := db.reviews.filter (fun r => !(r.course_code == course)) } f.id).isEmpty
      · rfl
      · exact absurd (List.isEmpty_iff.mp hE) hne
    · rw [findFaculty_def]
      refine List.find?_isSome.mpr ⟨f, hf, ?_⟩
      simp
  · intro fid hall
    rw [foldl_update_reviewsOf, reviewsOf_filter]
    refine List.filter_eq_self.mpr ?_
    intro r hr
    simp [hall r hr]

/-- Witness for C6 (amended) at `dbY2`: the emptied faculty 1 keeps its
stale row, faculty 2 (which still owns its review) is fresh, and faculty 2's
review set is untouched. -/
theorem claim_C6_witness :
    staleX ∈ (delete_course_reviews dbY2 "CSE330").faculty ∧
    freshAt (delete_course_reviews dbY2 "CSE330") freshY.id ∧
    reviewsOf (delete_course_reviews dbY2 "CSE330") 2 = reviewsOf dbY2 2 := by
  refine ⟨(claim_C6_amended dbY2 "CSE330").2.1 staleX (by with_unfolding_all decide)
      (by with_unfolding_all decide), ?_, ?_⟩
  · exact (claim_C6_amended dbY2 "CSE330").2.2.1 freshY (by with_unfolding_all decide)
      (by with_unfolding_all decide)
  · exact (claim_C6_amended dbY2 "CSE330").2.2.2 2 (by with_unfolding_all decide)

/-- Counterexample to C6 as stated: deleting all CSE330 reviews across
`dbY2` leaves the affected faculty 1 with zero reviews and its stored
aggregates NOT recomputed — they still hold 5.0 and `total_reviews` 1. -/
theorem claim_C6_cex :
    reviewsOf dbY3 1 = [] ∧ findFaculty dbY3 1 = some staleX := by
  with_unfolding_all decide

theorem contains_iff_mem (l : List ℕ) (a : ℕ) : l.contains a = true ↔ a ∈ l :=
  List.elem_iff

/-- The effect of the flush-time orphaning on any surviving owner's review
set: a faculty id that is not among the deleted duplicates' ids owns exactly
the same reviews after the orphaning map as before. -/
theorem orphan_filter_eq (losers : List Faculty) (x : ℕ)
    (hx : x ∉ losers.map (fun f => f.id)) (l : List Review) :
    (l.map (fun r =>
        if losers.any (fun f => r.faculty_id == some f.id)
        then { r with faculty_id := none } else r)).filter
      (fun r => r.faculty_id == some x)
      = l.filter (fun r => r.faculty_id == some x) := by
  induction l with
  | nil => rfl
  | cons r t ih =>
    simp only [List.map_cons, List.filter_cons]
    by_cases hc : losers.any (fun f => r.faculty_id == some f.id) = true
    · obtain ⟨d, hd, hdid⟩ := List.any_eq_true.mp hc
      have hrd : r.faculty_id = some d.id := by simpa using hdid
      have hdx : ¬ d.id = x := fun hEq => hx (hEq ▸ List.mem_map_of_mem _ hd)
      have h1 : (({ r with faculty_id := none } : Review).faculty_id == some x) = false := rfl
      rw [if_pos hc, if_neg (by rw [h1]; exact Bool.false_ne_true),
        if_neg (by rw [hrd]; simp [hdx]), ih]
    · rw [if_neg hc, ih]

/-- C7 (code bug): the code of `consolidate_ard` at the claim's failing
input `dbA` (ARD duplicates owning 2, 0 and 3 reviews).  The no-op branch
behaves as claimed and the duplicates are deleted without any review row
disappearing, but the survivor ends up owning only its own 2 reviews — not
all 5 — because the 3 reviews of the deleted duplicates are orphaned
(`faculty_id` NULL) at flush instead of being re-parented as the code's own
comments intend. -/
theorem claim_C7_bug :
    consolidate_ard dbSmallArd = (dbSmallArd, "No consolidation needed") ∧
    ardEntries (consolidate_ard dbA).1 = [fA1] ∧
    (consolidate_ard dbA).1.reviews.length = dbA.reviews.length ∧
    (reviewsOf (consolidate_ard dbA).1 1).length = 2 ∧
    ((consolidate_ard dbA).1.reviews.filter (fun r => r.faculty_id == none)).length = 3 := by
  with_unfolding_all decide

/-- C8 (amended): consolidation leaves every surviving faculty row entirely
untouched: the row itself (stored aggregate fields included) is
byte-for-byte a row of the prior store, and its owned review set is also
unchanged — the duplicates' reviews are orphaned rather than merged — so no
recompute runs and none of the survivor's aggregates moves. -/
theorem claim_C8_amended (db : DB) (f' : Faculty)
    (h : f' ∈ (consolidate_ard db).1.faculty) :
    f' ∈ db.faculty ∧ reviewsOf (consolidate_ard db).1 f'.id = reviewsOf db f'.id := by
  rcases hE : ardEntries db with _ | ⟨a, _ | ⟨b, t⟩⟩
  · have hC : consolidate_ard db = (db, "No consolidation needed") := by
      unfold consolidate_ard
      rw [hE]
    rw [hC] at h ⊢
    exact ⟨h, rfl⟩
  · have hC : consolidate_ard db = (db, "No consolidation needed") := by
      unfold consolidate_ard
      rw [hE]
    rw [hC] at h ⊢
    exact ⟨h, rfl⟩
  · have hC : consolidate_ard db =
        (⟨db.faculty.filter (fun f => !(((b :: t).map (fun f => f.id)).contains f.id)),
          db.reviews.map (fun r =>
            if (b :: t).any (fun f => r.faculty_id == some f.id)
            then { r with faculty_id := none } else r)⟩,
         "Successfully consolidated " ++ toString (a :: b :: t).length
            ++ " ARD entries into one") := by
      unfold consolidate_ard
      rw [hE]
    rw [hC] at h ⊢
    dsimp only at h ⊢
    refine ⟨List.mem_of_mem_filter h, ?_⟩
    have hpred : (!(((b :: t).map (fun f => f.id)).contains f'.id)) = true :=
      (List.mem_filter.mp h).2
    have hx : f'.id ∉ (b :: t).map (fun f => f.id) := by
      intro hmem
      rw [(contains_iff_mem _ _).mpr hmem] at hpred
      exact Bool.false_ne_true hpred
    exact orphan_filter_eq (b :: t) f'.id hx db.reviews

/-- Witness for C8 (amended): the surviving all-zero ARD row of `dbZ1` was
present unchanged before consolidation, and its owned review set is
unchanged by it. -/
theorem claim_C8_witness :
    ({ id := 1, name := "ARD" } : Faculty) ∈ dbZ1.faculty ∧
    reviewsOf (consolidate_ard dbZ1).1 ({ id := 1, name := "ARD" } : Faculty).id
      = reviewsOf dbZ1 ({ id := 1, name := "ARD" } : Faculty).id :=
  claim_C8_amended dbZ1 { id := 1, name := "ARD" } (by with_unfolding_all decide)

/-- Counterexample to C8 as stated: consolidating `dbZ1` merges two ARD
rows, the duplicate owning one all-fours review; afterwards the survivor's
stored aggregates are the untouched zeros AND its review set was never
enlarged — it owns no review at all, the duplicate's review having been
orphaned (`faculty_id` NULL) instead of moved to it. -/
theorem claim_C8_cex :
    findFaculty (consolidate_ard dbZ1).1 1 = some { id := 1, name := "ARD" } ∧
    reviewsOf (consolidate_ard dbZ1).1 1 = [] ∧
    reviewsOf dbZ1 2 ≠ [] ∧
    ((consolidate_ard dbZ1).1.reviews.filter (fun r => r.faculty_id == none)).length = 1 ∧
    ardEntries (consolidate_ard dbZ1).1 = [{ id := 1, name := "ARD" }] := by
  with_unfolding_all decide

theorem findFaculty_id (db : DB) (x : ℕ) (g : Faculty) (h : findFaculty db x = some g) :
    g.id = x := by
  rw [findFaculty_def] at h
  simpa using List.find?_some (p := fun f : Faculty => f.id == x) h

theorem mean_singleton (q : ℚ) : mean [q] = q := by simp [mean]

theorem round2_four : round2 4 = 4 := by with_unfolding_all decide

theorem details_after_single (db : DB) (fid : ℕ) (f : Faculty) (r : Review)
    (hf : findFaculty db fid = some f) (h0 : reviewsOf db fid = [])
    (hrid : r.faculty_id = some fid)
    (ht : r.teaching_effectiveness = 4) (hs : r.student_engagement = 4)
    (hc : r.clarity = 4) (hp : r.professionalism = 4)
    (hsrc : r.source_type = "screenshot_analysis") :
    get_faculty_details (update_faculty_ratings { db with reviews := db.reviews ++ [r] } fid) fid
      = some (⟨4, 4, 4, 4, 4⟩, 1) := by
  have hrev1 : reviewsOf { db with reviews := db.reviews ++ [r] } fid = [r] := by
    show (db.reviews ++ [r]).filter (fun rr => rr.faculty_id == some fid) = [r]
    rw [List.filter_append]
    rw [show db.reviews.filter (fun rr => rr.faculty_id == some fid) = [] from h0]
    simp [hrid]
  have hf1 : findFaculty { db with reviews := db.reviews ++ [r] } fid = some f := hf
  have hsome2 : (findFaculty
      (update_faculty_ratings { db with reviews := db.reviews ++ [r] } fid) fid).isSome = true := by
    rw [findFaculty_isSome_update, hf1]
    rfl
  obtain ⟨f2, hf2⟩ := Option.isSome_iff_exists.mp hsome2
  have hid2 : f2.id = fid := findFaculty_id _ _ _ hf2
  have hrev2 : reviewsOf
      (update_faculty_ratings { db with reviews := db.reviews ++ [r] } fid) fid = [r] := by
    rw [reviewsOf_update]
    exact hrev1
  have hview : average_ratings
      (update_faculty_ratings { db with reviews := db.reviews ++ [r] } fid) f2
        = ⟨4, 4, 4, 4, 4⟩ := by
    unfold average_ratings
    rw [hid2, hrev2]
    dsimp only
    rw [show ([r].filter (fun rr => rr.source_type == "screenshot_analysis")) = [r] from by
      simp [hsrc]]
    simp only [List.isEmpty_cons, Bool.false_eq_true, if_false]
    rw [show [r].map (fun rr => rr.teaching_effectiveness) = [(4 : ℚ)] from by simp [ht]]
    rw [show [r].map (fun rr => rr.student_engagement) = [(4 : ℚ)] from by simp [hs]]
    rw [show [r].map (fun rr => rr.clarity) = [(4 : ℚ)] from by simp [hc]]
    rw [show [r].map (fun rr => rr.professionalism) = [(4 : ℚ)] from by simp [hp]]
    rw [mean_singleton, round2_four]
    rw [show ((4 : ℚ) + 4 + 4 + 4) / 4 = 4 from by norm_num, round2_four]
  unfold get_faculty_details
  rw [hf2]
  dsimp only [Option.map_some']
  rw [hview, hrev2]
  rfl

/-- C9 (amended): creating a single review with all four ratings 4 AND
provenance `screenshot_analysis` for a faculty with no other reviews, then
reading the faculty's details, returns 4 in all four dimensions, 4 overall
and one review counted.  (The provenance condition is required: the detail
view filters on it.) -/
theorem claim_C9_amended (db : DB) (fid : ℕ) (f : Faculty) (inp : ReviewInput)
    (hf : findFaculty db fid = some f) (h0 : reviewsOf db fid = [])
    (h1 : inp.teaching_effectiveness = 4) (h2 : inp.student_engagement = 4)
    (h3 : inp.clarity = 4) (h4 : inp.professionalism = 4)
    (hsrc : inp.source_type = some "screenshot_analysis") :
    get_faculty_details (add_faculty_review db fid inp) fid = some (⟨4, 4, 4, 4, 4⟩, 1) := by
  unfold add_faculty_review
  rw [hf]
  exact details_after_single db fid f _ hf h0 rfl h1 h2 h3 h4 (by rw [hsrc]; rfl)

/-- Witness for C9 (amended): a concrete round trip through `dbX0`. -/
theorem claim_C9_witness :
    get_faculty_details (add_faculty_review dbX0 1 inp4shot) 1 = some (⟨4, 4, 4, 4, 4⟩, 1) :=
  claim_C9_amended dbX0 1 { id := 1, name := "X" } inp4shot
    (by with_unfolding_all decide) (by with_unfolding_all decide) rfl rfl rfl rfl rfl

/-- Counterexample to C9 as stated: the same round trip with the default
`direct_submission` provenance returns the all-zero view, not fours — the
detail view only averages `screenshot_analysis` reviews. -/
theorem claim_C9_cex :
    get_faculty_details dbW1 1 = some (zeroRatings, 1) := by
  with_unfolding_all decide

/-- C10 (amended): the code's only filtered view, `average_ratings`, is the
spec's `filteredAverages` instantiated at the FIXED tag
`screenshot_analysis` (there is no sourceType parameter), and it returns the
all-zero ratings (overall included) whenever the filtered subset is
empty. -/
theorem claim_C10_amended (db : DB) (f : Faculty) :
    average_ratings db f = filteredAverages_spec db f "screenshot_analysis" ∧
    ((reviewsOf db f.id).filter (fun r => r.source_type == "screenshot_analysis") = [] →
      average_ratings db f = zeroRatings) := by
  constructor
  · unfold average_ratings filteredAverages_spec
    by_cases hE : (reviewsOf db f.id).isEmpty = true
    · rw [if_pos hE]
      rw [List.isEmpty_iff.mp hE]
      rfl
    · rw [if_neg hE]
  · intro hsel
    unfold average_ratings
    by_cases hE : (reviewsOf db f.id).isEmpty = true
    · rw [if_pos hE]
    · rw [if_neg hE, hsel]
      rfl

/-- Witness for C10 (amended) at `dbD`, whose single review is a
`direct_submission`: the view equals the spec instance at
`screenshot_analysis` and reads all-zero. -/
theorem claim_C10_witness :
    average_ratings dbD fD = filteredAverages_spec dbD fD "screenshot_analysis" ∧
    average_ratings dbD fD = zeroRatings :=
  ⟨(claim_C10_amended dbD fD).1, (claim_C10_amended dbD fD).2 (by with_unfolding_all decide)⟩

/-- Counterexample to C10 as stated: for the given sourceType
`direct_submission`, the claimed parameterised view would average the
matching all-fours review to fours, but the code's view (its filter tag
fixed at `screenshot_analysis`) returns the all-zero ratings instead. -/
theorem claim_C10_cex :
    filteredAverages_spec dbD fD "direct_submission" = ⟨4, 4, 4, 4, 4⟩ ∧
    average_ratings dbD fD = zeroRatings := by
  with_unfolding_all decide

theorem analyze_feedback_eq (text : String) (r : ExtractedRatings)
    (h : analyze_feedback text = some r) :
    fieldValue (searchSub ("teaching effectiveness:".toList) text.toList)
      = some r.teaching_effectiveness ∧
    fieldValue (searchSub ("student engagement:".toList) text.toList)
      = some r.student_engagement ∧
    fieldValue (searchSub ("clarity of presentation:".toList) text.toList)
      = some r.clarity ∧
    fieldValue (searchSub ("overall professionalism:".toList) text.toList)
      = some r.professionalism ∧
    (∀ q, fieldValue (searchOverall text.toList) = some (some q) → r.overall = some q) ∧
    (fieldValue (searchOverall text.toList) = some none →
      r.overall = (if (parsedSubs r).isEmpty then none else some (mean (parsedSubs r)))) ∧
    (fieldValue (searchOverall text.toList)).isSome = true := by
  unfold analyze_feedback at h
  by_cases hsent : containsSeq ("NO_FEEDBACK_FOUND".toList) text.toList = true
  · rw [if_pos hsent] at h
    exact Option.noConfusion h
  · rw [if_neg hsent] at h
    rcases h1 : fieldValue (searchSub ("teaching effectiveness:".toList) text.toList)
      with _ | te <;> rw [h1] at h
    · exact Option.noConfusion h
    rcases h2 : fieldValue (searchSub ("student engagement:".toList) text.toList)
      with _ | se <;> rw [h2] at h
    · exact Option.noConfusion h
    rcases h3 : fieldValue (searchSub ("clarity of presentation:".toList) text.toList)
      with _ | cl <;> rw [h3] at h
    · exact Option.noConfusion h
    rcases h4 : fieldValue (searchSub ("overall professionalism:".toList) text.toList)
      with _ | pr <;> rw [h4] at h
    · exact Option.noConfusion h
    rcases h5 : fieldValue (searchOverall text.toList) with _ | ov <;> rw [h5] at h
    · exact Option.noConfusion h
    have hr := Option.some.inj h
    subst hr
    refine ⟨rfl, rfl, rfl, rfl, ?_, ?_, rfl⟩
    · intro q hq
      have : ov = some q := Option.some.inj hq
      subst this
      rfl
    · intro hq
      have : ov = none := Option.some.inj hq
      subst this
      rfl

theorem analyze_none_of_badSub (text : String) (s : Option (List Char))
    (hs : s ∈ subSearches text.toList) (g : List Char) (hg : s = some g)
    (hbad : floatOfNum g = none) : analyze_feedback text = none := by
  subst hg
  have hfv : fieldValue (some g) = none := by simp [fieldValue, hbad]
  unfold analyze_feedback
  by_cases hsent : containsSeq ("NO_FEEDBACK_FOUND".toList) text.toList = true
  · rw [if_pos hsent]
  · rw [if_neg hsent]
    simp only [subSearches, List.mem_cons, List.not_mem_nil, or_false] at hs
    rcases hs with hs | hs | hs | hs
    · rw [← hs, hfv]
    · rw [← hs, hfv]
      cases fieldValue (searchSub ("teaching effectiveness:".toList) text.toList) <;> rfl
    · rw [← hs, hfv]
      cases fieldValue (searchSub ("teaching effectiveness:".toList) text.toList)
      · rfl
      cases fieldValue (searchSub ("student engagement:".toList) text.toList) <;> rfl
    · rw [← hs, hfv]
      cases fieldValue (searchSub ("teaching effectiveness:".toList) text.toList)
      · rfl
      cases fieldValue (searchSub ("student engagement:".toList) text.toList)
      · rfl
      cases fieldValue (searchSub ("clarity of presentation:".toList) text.toList) <;> rfl

/-- C3: whenever extraction succeeds, an explicitly matched overall line is
returned verbatim as `overall` (whatever the sub-ratings average to); when
no overall line matches, `overall` is the arithmetic mean of exactly the
successfully parsed sub-ratings, and null — not zero — when none parsed. -/
theorem claim_C3 (text : String) (r : ExtractedRatings)
    (h : analyze_feedback text = some r) :
    (∀ g, searchOverall text.toList = some g →
      r.overall = floatOfNum g ∧ (floatOfNum g).isSome = true) ∧
    (searchOverall text.toList = none →
      r.overall = (if (parsedSubs r).isEmpty then none else some (mean (parsedSubs r)))) := by
  obtain ⟨-, -, -, -, hov1, hov2, hovS⟩ := analyze_feedback_eq text r h
  constructor
  · intro g hg
    cases hfg : floatOfNum g with
    | none =>
      rw [hg] at hovS
      rw [show fieldValue (some g) = none from by simp [fieldValue, hfg]] at hovS
      exact absurd hovS (by simp)
    | some q =>
      have hq : fieldValue (searchOverall text.toList) = some (some q) := by
        rw [hg]
        simp [fieldValue, hfg]
      exact ⟨hov1 q hq, rfl⟩
  · intro hnone
    exact hov2 (by rw [hnone]; rfl)

/-- Witness for C3: on `exText0` (sub-ratings 4, 3, 2, 5, no overall line)
the fallback mean of exactly the parsed sub-ratings is returned, evaluating
to 3.5; on `exTextOv` the explicit 3.0 overall is returned verbatim although
the sole sub-rating is 4.5. -/
theorem claim_C3_witness :
    analyze_feedback exText0 = some exRatings0 ∧
    (exRatings0.overall
      = (if (parsedSubs exRatings0).isEmpty then none else some (mean (parsedSubs exRatings0)))) ∧
    exRatings0.overall = some (7 / 2) ∧
    (exRatingsOv.overall = floatOfNum ("3.0".toList) ∧ (floatOfNum ("3.0".toList)).isSome = true) ∧
    exRatingsOv.overall = some 3 := by
  refine ⟨by with_unfolding_all decide, ?_, by with_unfolding_all decide, ?_,
    by with_unfolding_all decide⟩
  · exact (claim_C3 exText0 exRatings0 (by with_unfolding_all decide)).2
      (by with_unfolding_all decide)
  · exact (claim_C3 exTextOv exRatingsOv (by with_unfolding_all decide)).1
      ("3.0".toList) (by with_unfolding_all decide)

/-- C4 (amended): when extraction succeeds, each sub-rating field equals the
float-parse of its own pattern search — an unmatched field is absent for
that field only, and a matched number is kept verbatim with NO range check;
but a matched group that is not a valid float aborts the whole extraction,
which returns nothing at all. -/
theorem claim_C4_amended (text : String) :
    (∀ r, analyze_feedback text = some r →
      fieldValue (searchSub ("teaching effectiveness:".toList) text.toList)
        = some r.teaching_effectiveness ∧
      fieldValue (searchSub ("student engagement:".toList) text.toList)
        = some r.student_engagement ∧
      fieldValue (searchSub ("clarity of presentation:".toList) text.toList)
        = some r.clarity ∧
      fieldValue (searchSub ("overall professionalism:".toList) text.toList)
        = some r.professionalism) ∧
    (∀ s ∈ subSearches text.toList, ∀ g, s = some g → floatOfNum g = none →
      analyze_feedback text = none) := by
  constructor
  · intro r h
    obtain ⟨h1, h2, h3, h4, -, -, -⟩ := analyze_feedback_eq text r h
    exact ⟨h1, h2, h3, h4⟩
  · intro s hs g hg hbad
    exact analyze_none_of_badSub text s hs g hg hbad

/-- Witness for C4 (amended): on `exTextRange` the out-of-range 9.9 is kept
for teaching while clarity and professionalism are absent and engagement is
4; on `exTextFatal` the matched group `1.2.3` fails float parsing and the
whole extraction returns nothing. -/
theorem claim_C4_witness :
    (fieldValue (searchSub ("teaching effectiveness:".toList) exTextRange.toList)
        = some exRatingsRange.teaching_effectiveness ∧
      fieldValue (searchSub ("student engagement:".toList) exTextRange.toList)
        = some exRatingsRange.student_engagement ∧
      fieldValue (searchSub ("clarity of presentation:".toList) exTextRange.toList)
        = some exRatingsRange.clarity ∧
      fieldValue (searchSub ("overall professionalism:".toList) exTextRange.toList)
        = some exRatingsRange.professionalism) ∧
    analyze_feedback exTextFatal = none ∧
    exRatingsRange.teaching_effectiveness = some (99 / 10) := by
  refine ⟨(claim_C4_amended exTextRange).1 exRatingsRange (by with_unfolding_all decide),
    ?_, by with_unfolding_all decide⟩
  exact (claim_C4_amended exTextFatal).2
    (searchSub ("teaching effectiveness:".toList) exTextFatal.toList)
    (List.mem_cons_self _ _) ("1.2.3".toList)
    (by with_unfolding_all decide) (by with_unfolding_all decide)

/-- Counterexample to C4 as stated: the matched out-of-range number 9.9 is
NOT treated as absent (it is returned for teaching), and the matched but
malformed number 1.2.3 IS fatal — extraction returns nothing, losing the
valid engagement rating 4 alongside it. -/
theorem claim_C4_cex :
    analyze_feedback exTextRange = some exRatingsRange ∧
    exRatingsRange.teaching_effectiveness = some (99 / 10) ∧
    analyze_feedback exTextFatal = none := by
  with_unfolding_all decide

end FacultyRate
